import Mathlib

/-!
Verification of the smaapi provisioning and consistency pipeline.

This file gives a shallow embedding of the core service layer of the
repository — the credential vault (`src/utils/crypto.ts`), the subdomain
derivation (`src/utils/subdomain.ts`), the project provisioner
(`project.service.ts`), the API definition and version manager
(`apis.service.ts`) and the container materializer
(`api-gen.service.ts`) — and proves or refutes the specification claims
about them.  External collaborators (the AES block-cipher primitive, the
md5/sha256 digests, the DNS provider, the container engine, the two data
stores) are modelled as explicit parameters or as explicit state, so
every definition is executable and every run is a pure function of its
inputs.
-/

namespace Smaapi

/-! ## Credential vault (`src/utils/crypto.ts`)

`encrypt`/`decrypt` use node's `aes-256-cbc` through
`createCipheriv`/`createDecipheriv`.  The library cipher is modelled as
an abstract `BlockCipherIv` (keyed, IV-dependent, fallible inverse); the
repository code around it — key padding/truncation, random IV
concatenation, hex encoding and the `iv:cipher` delimiting — is embedded
directly. -/

/-- One nibble to its lowercase hex digit, as node's `hex` encoding emits. -/
def hexDigitChar (n : Nat) : Char :=
  if n < 10 then Char.ofNat (48 + n) else Char.ofNat (87 + n)

/-- Hex-encode a byte list (two lowercase digits per byte), the model of
`Buffer.toString("hex")`. -/
def hexEncode (bs : List Nat) : List Char :=
  bs.flatMap (fun b => [hexDigitChar (b / 16), hexDigitChar (b % 16)])

/-- Value of a hex digit, accepting both cases as node's hex parser does. -/
def hexDigitVal? (ch : Char) : Option Nat :=
  if '0' ≤ ch ∧ ch ≤ '9' then some (ch.toNat - 48)
  else if 'a' ≤ ch ∧ ch ≤ 'f' then some (ch.toNat - 87)
  else if 'A' ≤ ch ∧ ch ≤ 'F' then some (ch.toNat - 55)
  else none

/-- Model of `Buffer.from(s, "hex")`: decode pairs of hex digits from the
left, stopping (without error) at the first pair that is not two valid
digits — node's forgiving hex decoder. -/
def hexDecodeLoose : List Char → List Nat
  | c1 :: c2 :: rest =>
    match hexDigitVal? c1, hexDigitVal? c2 with
    | some h, some l => (16 * h + l) :: hexDecodeLoose rest
    | _, _ => []
  | _ => []

/-- Model of `"x".split(sep)` for a one-character separator: JS `split`
always returns at least one (possibly empty) segment. -/
def splitOnChar (sep : Char) : List Char → List (List Char)
  | [] => [[]]
  | c :: rest =>
    if c = sep then [] :: splitOnChar sep rest
    else
      match splitOnChar sep rest with
      | [] => [[c]]
      | p :: ps => (c :: p) :: ps

/-- `key.padEnd(32, "0").slice(0, 32)` — the key normalization both
`encrypt` and `decrypt` apply before building the AES-256 key buffer. -/
def normalizeKey (key : String) : String :=
  String.mk ((key.data ++ List.replicate (32 - key.data.length) '0').take 32)

/-- The external AES-256-CBC primitive (`createCipheriv` /
`createDecipheriv`), abstracted: `enc` maps a normalized key, an IV and a
plaintext to ciphertext bytes; `dec` is its fallible inverse (`none`
models a padding/corruption failure thrown by `decipher.final`). -/
structure BlockCipherIv where
  enc : String → List Nat → String → List Nat
  dec : String → List Nat → List Nat → Option String

/-- `encrypt(text, key)` from `src/utils/crypto.ts`: normalize the key,
encrypt under the fresh random IV (here an explicit parameter), and
return `ivHex ++ ":" ++ cipherHex`. -/
def encrypt (c : BlockCipherIv) (iv : List Nat) (text key : String) : String :=
  String.mk (hexEncode iv ++ ':' :: hexEncode (c.enc (normalizeKey key) iv text))

/-- The failure modes of `decrypt`: `createDecipheriv` rejecting a wrong
IV length, `decipher.update` rejecting a missing ciphertext segment
(no `:` delimiter), and `decipher.final` rejecting bad padding. -/
inductive DecryptionError where
  | invalidIv
  | missingCipherText
  | badDecrypt
  deriving Repr, DecidableEq

/-- `decrypt(encryptedText, key)` from `src/utils/crypto.ts`: split on
`":"`, hex-decode the IV segment, build the decipher (which fails unless
the IV is 16 bytes), then decode and decrypt the second segment (which
fails when the segment is absent, i.e. there was no delimiter). -/
def decrypt (c : BlockCipherIv) (encryptedText key : String) :
    Except DecryptionError String :=
  let parts := splitOnChar ':' encryptedText.data
  let iv := hexDecodeLoose (parts.headD [])
  if iv.length ≠ 16 then .error .invalidIv
  else
    match parts.get? 1 with
    | none => .error .missingCipherText
    | some encHex =>
      match c.dec (normalizeKey key) iv (hexDecodeLoose encHex) with
      | none => .error .badDecrypt
      | some plain => .ok plain

/-! ### Supporting lemmas for the crypto claims -/

theorem hexDigitVal_hexDigitChar {n : Nat} (h : n < 16) :
    hexDigitVal? (hexDigitChar n) = some n := by
  interval_cases n <;> decide

theorem hexDigitChar_ne_colon {n : Nat} (h : n < 16) :
    hexDigitChar n ≠ ':' := by
  interval_cases n <;> decide

theorem hexDecodeLoose_hexEncode {bs : List Nat} (h : ∀ b ∈ bs, b < 256) :
    hexDecodeLoose (hexEncode bs) = bs := by
  induction bs with
  | nil => rfl
  | cons b tl ih =>
    have hb : b < 256 := h b (List.mem_cons_self _ _)
    have hdiv : b / 16 < 16 := by omega
    have hmod : b % 16 < 16 := Nat.mod_lt _ (by omega)
    have htl : ∀ x ∈ tl, x < 256 := fun x hx => h x (List.mem_cons_of_mem _ hx)
    simp only [hexEncode, List.flatMap_cons] at *
    show hexDecodeLoose
        (hexDigitChar (b / 16) :: hexDigitChar (b % 16) :: tl.flatMap _) = _
    rw [hexDecodeLoose, hexDigitVal_hexDigitChar hdiv,
      hexDigitVal_hexDigitChar hmod]
    simp only [ih htl]
    congr 1
    omega

theorem colon_not_mem_hexEncode {bs : List Nat} (h : ∀ b ∈ bs, b < 256) :
    ':' ∉ hexEncode bs := by
  intro hmem
  simp only [hexEncode, List.mem_flatMap] at hmem
  obtain ⟨b, hb, hcb⟩ := hmem
  have hb256 := h b hb
  have hdiv : b / 16 < 16 := by omega
  have hmod : b % 16 < 16 := Nat.mod_lt _ (by omega)
  simp only [List.mem_cons, List.not_mem_nil, or_false] at hcb
  rcases hcb with hcb | hcb
  · exact hexDigitChar_ne_colon hdiv hcb.symm
  · exact hexDigitChar_ne_colon hmod hcb.symm

theorem splitOnChar_ne_nil (sep : Char) (l : List Char) :
    splitOnChar sep l ≠ [] := by
  induction l with
  | nil => intro hc; cases hc
  | cons c rest ih =>
    rw [splitOnChar]
    split
    · intro hc; cases hc
    · split
      · next heq => exact absurd heq ih
      · intro hc; cases hc

theorem splitOnChar_no_sep {sep : Char} {l : List Char} (h : sep ∉ l) :
    splitOnChar sep l = [l] := by
  induction l with
  | nil => rfl
  | cons c rest ih =>
    have hc : ¬ c = sep := fun hceq => h (hceq ▸ List.mem_cons_self _ _)
    have hrest : sep ∉ rest := fun hm => h (List.mem_cons_of_mem _ hm)
    rw [splitOnChar, if_neg hc, ih hrest]

theorem splitOnChar_append {sep : Char} {a b : List Char} (h : sep ∉ a) :
    splitOnChar sep (a ++ sep :: b) = a :: splitOnChar sep b := by
  induction a with
  | nil =>
    simp only [List.nil_append]
    rw [splitOnChar, if_pos rfl]
  | cons c rest ih =>
    have hc : ¬ c = sep := fun hceq => h (hceq ▸ List.mem_cons_self _ _)
    have hrest : sep ∉ rest := fun hm => h (List.mem_cons_of_mem _ hm)
    show splitOnChar sep (c :: (rest ++ sep :: b)) = _
    rw [splitOnChar, if_neg hc, ih hrest]

/-- Core round-trip fact shared by the C6 and C10 claims: whenever the
underlying block cipher inverts this particular encryption, the
`iv:cipher` packaging round-trips through `decrypt` for any key whose
normalization matches the encrypting one. -/
theorem decrypt_encrypt_of_normalizeKey_eq (c : BlockCipherIv)
    (x k1 k2 : String) (iv : List Nat)
    (hnorm : normalizeKey k1 = normalizeKey k2)
    (hivlen : iv.length = 16)
    (hivbytes : ∀ b ∈ iv, b < 256)
    (hctbytes : ∀ b ∈ c.enc (normalizeKey k1) iv x, b < 256)
    (hround : c.dec (normalizeKey k1) iv (c.enc (normalizeKey k1) iv x)
        = some x) :
    decrypt c (encrypt c iv x k1) k2 = .ok x := by
  unfold decrypt encrypt
  have hdata : (String.mk (hexEncode iv ++ ':' ::
      hexEncode (c.enc (normalizeKey k1) iv x))).data
      = hexEncode iv ++ ':' :: hexEncode (c.enc (normalizeKey k1) iv x) := rfl
  rw [hdata, splitOnChar_append (colon_not_mem_hexEncode hivbytes),
    splitOnChar_no_sep (colon_not_mem_hexEncode hctbytes)]
  simp only [List.headD_cons, List.get?]
  rw [hexDecodeLoose_hexEncode hivbytes, hexDecodeLoose_hexEncode hctbytes]
  rw [if_neg (by rw [hivlen]; exact fun hc => hc rfl)]
  rw [← hnorm, hround]

/-- A concrete invertible stand-in for the external cipher, used by the
claim witnesses: it maps each character to its code point (bytes for
ASCII input) and back. -/
def testCipher : BlockCipherIv where
  enc := fun _ _ m => m.data.map Char.toNat
  dec := fun _ _ bs => some (String.mk (bs.map Char.ofNat))

/-- A concrete 16-byte IV for the witnesses. -/
def testIv : List Nat :=
  [0, 1, 2, 3, 4, 5, 6, 7, 8, 9, 10, 11, 12, 13, 14, 15]

/-- Keys agreeing on their first 32 characters normalize identically:
`padEnd(32, "0").slice(0, 32)` discards everything beyond position 32. -/
theorem normalizeKey_eq_of_take_eq {k1 k2 : String}
    (h : k1.data.take 32 = k2.data.take 32) :
    normalizeKey k1 = normalizeKey k2 := by
  unfold normalizeKey
  congr 1
  have hlen : min 32 k1.data.length = min 32 k2.data.length := by
    have := congrArg List.length h
    simpa using this
  have hsub : 32 - k1.data.length = 32 - k2.data.length := by omega
  rw [List.take_append_eq_append_take, List.take_append_eq_append_take,
    List.take_replicate, List.take_replicate, h, min_self, min_self, hsub]

/-- C6: for every non-empty string `x` and key `k`,
`decrypt(encrypt(x, k), k)` returns `x`: the fresh random IV is recovered
from the self-describing `iv:cipher` hex encoding, assuming only that the
external AES-CBC primitive inverts its own output on this input. -/
theorem C6_decrypt_encrypt_roundtrip (c : BlockCipherIv) (x key : String)
    (iv : List Nat)
    (hx : x ≠ "")
    (hivlen : iv.length = 16)
    (hivbytes : ∀ b ∈ iv, b < 256)
    (hctbytes : ∀ b ∈ c.enc (normalizeKey key) iv x, b < 256)
    (hround : c.dec (normalizeKey key) iv (c.enc (normalizeKey key) iv x)
        = some x) :
    decrypt c (encrypt c iv x key) key = .ok x :=
  decrypt_encrypt_of_normalizeKey_eq c x key key iv rfl hivlen hivbytes
    hctbytes hround

/-- Witness for C6 at a concrete plaintext, key, IV and cipher. -/
theorem C6_witness :
    ("hi" : String) ≠ "" ∧
    testIv.length = 16 ∧
    (∀ b ∈ testIv, b < 256) ∧
    (∀ b ∈ testCipher.enc (normalizeKey "secret") testIv "hi", b < 256) ∧
    testCipher.dec (normalizeKey "secret") testIv
        (testCipher.enc (normalizeKey "secret") testIv "hi") = some "hi" ∧
    decrypt testCipher (encrypt testCipher testIv "hi" "secret") "secret"
      = .ok "hi" :=
  ⟨by decide, by decide, by decide, by decide, by decide,
    C6_decrypt_encrypt_roundtrip testCipher "hi" "secret" testIv (by decide)
      (by decide) (by decide) (by decide) (by decide)⟩

/-- C7: for every malformed cipher text — no `:` delimiter, or an IV
segment that does not hex-decode to 16 bytes — and every key, `decrypt`
fails with a `DecryptionError` rather than returning plaintext. -/
theorem C7_malformed_ciphertext_errors (c : BlockCipherIv) (ct key : String)
    (h : ':' ∉ ct.data ∨
      (hexDecodeLoose ((splitOnChar ':' ct.data).headD [])).length ≠ 16) :
    ∃ e, decrypt c ct key = .error e := by
  simp only [decrypt]
  by_cases hlen :
      (hexDecodeLoose ((splitOnChar ':' ct.data).headD [])).length ≠ 16
  · exact ⟨.invalidIv, by rw [if_pos hlen]⟩
  · rcases h with hno | hbad
    · refine ⟨.missingCipherText, ?_⟩
      rw [if_neg hlen, splitOnChar_no_sep hno]
      rfl
    · exact absurd hbad hlen

/-- Witness for C7: a 4-byte IV segment with no delimiter is rejected. -/
theorem C7_witness :
    (':' ∉ ("deadbeef" : String).data ∨
      (hexDecodeLoose
        ((splitOnChar ':' ("deadbeef" : String).data).headD [])).length ≠ 16) ∧
    ∃ e, decrypt testCipher "deadbeef" "secret" = .error e :=
  ⟨by decide,
    C7_malformed_ciphertext_errors testCipher "deadbeef" "secret" (by decide)⟩

/-- C10: `encrypt` and `decrypt` depend on the key material only through
its first 32 characters (shorter keys are right-padded with `'0'`, longer
keys truncated): keys agreeing on their first 32 characters normalize
identically, encrypt identically, and decrypt each other's output. -/
theorem C10_key_first32_only (c : BlockCipherIv) (x k1 k2 : String)
    (iv : List Nat)
    (hagree : k1.data.take 32 = k2.data.take 32)
    (hivlen : iv.length = 16)
    (hivbytes : ∀ b ∈ iv, b < 256)
    (hctbytes : ∀ b ∈ c.enc (normalizeKey k1) iv x, b < 256)
    (hround : c.dec (normalizeKey k1) iv (c.enc (normalizeKey k1) iv x)
        = some x) :
    normalizeKey k1 = normalizeKey k2 ∧
    encrypt c iv x k1 = encrypt c iv x k2 ∧
    decrypt c (encrypt c iv x k1) k2 = .ok x := by
  have hnorm := normalizeKey_eq_of_take_eq hagree
  refine ⟨hnorm, ?_, ?_⟩
  · unfold encrypt
    rw [hnorm]
  · exact decrypt_encrypt_of_normalizeKey_eq c x k1 k2 iv hnorm hivlen
      hivbytes hctbytes hround

/-- Witness for C10: two 35-character keys sharing their first 32
characters but differing beyond decrypt each other's output. -/
theorem C10_witness :
    ("aaaaaaaaaaaaaaaaaaaaaaaaaaaaaaaaXYZ" : String).data.take 32
      = ("aaaaaaaaaaaaaaaaaaaaaaaaaaaaaaaa123" : String).data.take 32 ∧
    decrypt testCipher
        (encrypt testCipher testIv "creds" "aaaaaaaaaaaaaaaaaaaaaaaaaaaaaaaaXYZ")
        "aaaaaaaaaaaaaaaaaaaaaaaaaaaaaaaa123" = .ok "creds" :=
  ⟨by decide,
    (C10_key_first32_only testCipher "creds"
      "aaaaaaaaaaaaaaaaaaaaaaaaaaaaaaaaXYZ"
      "aaaaaaaaaaaaaaaaaaaaaaaaaaaaaaaa123" testIv (by decide) (by decide)
      (by decide) (by decide) (by decide)).2.2⟩

/-! ## Table schema synthesizer (`api-gen.service.ts`, lines 14–150)

`generateTableSchema` and its helpers are pure code except for the md5
digest, which is passed as a parameter.  JS truthiness of the
`min-length`/`max-length` numbers and the `required` flag is modelled
explicitly. -/

/-- Column of a synthesized table (`TableSchema.columns` entries). -/
structure ColumnSpec where
  name : String
  type : String
  constraints : List String
  deriving Repr, DecidableEq

/-- The `TableSchema` record generated for one API definition. -/
structure TableSchema where
  tableName : String
  columns : List ColumnSpec
  primaryKey : Option String
  deriving Repr, DecidableEq

/-- One declared property of a request-body schema: its `type` string,
optional `min-length`/`max-length` numbers and a `required` flag. -/
structure PropertySpec where
  type : String
  minLength : Option Nat
  maxLength : Option Nat
  required : Bool
  deriving Repr, DecidableEq

/-- The rich body schema `parameters.body`: an optional `required` name
list plus optional ordered `properties` entries. -/
structure BodySchema where
  required : Option (List String)
  properties : Option (List (String × PropertySpec))
  deriving Repr, DecidableEq

/-- JS truthiness of an optional number (`0` and absence are falsy). -/
def truthyNum : Option Nat → Bool
  | some n => n != 0
  | none => false

/-- `generateTableNameHash`: md5 of `"{userId}_{projectId}_{endpointPath}"`,
truncated to its first 10 hex digits. -/
def generateTableNameHash (md5hex : String → String)
    (userId projectId : Nat) (endpointPath : String) : String :=
  String.mk ((md5hex s!"{userId}_{projectId}_{endpointPath}").data.take 10)

/-- Model of JS `.toLowerCase()` (character-wise ASCII lowercasing). -/
def toLowerStr (s : String) : String :=
  String.mk (s.data.map Char.toLower)

/-- `mapTypeToDbType`: closed map from logical types to column types,
lowercasing first, with `TEXT` as the default. -/
def mapTypeToDbType (schemaType : String) : String :=
  match toLowerStr schemaType with
  | "string" => "TEXT"
  | "number" => "DOUBLE"
  | "integer" => "INT"
  | "boolean" => "BOOLEAN"
  | "date" => "DATETIME"
  | "datetime" => "DATETIME"
  | _ => "TEXT"

/-- `extractConstraints`: truthy `min-length`/`max-length` become
`MIN_LENGTH(n)`/`MAX_LENGTH(n)`, a truthy `required` becomes `NOT NULL`,
in that order. -/
def extractConstraints (p : PropertySpec) : List String :=
  (if truthyNum p.minLength then
    [s!"MIN_LENGTH({p.minLength.getD 0})"] else [])
  ++ (if truthyNum p.maxLength then
    [s!"MAX_LENGTH({p.maxLength.getD 0})"] else [])
  ++ (if p.required then ["NOT NULL"] else [])

/-- The implicit auto-increment primary-key column. -/
def idColumn : ColumnSpec :=
  ⟨"id", "INT", ["AUTO_INCREMENT", "PRIMARY KEY"]⟩

/-- The implicit creation-timestamp column. -/
def createdAtColumn : ColumnSpec :=
  ⟨"created_at", "DATETIME", ["DEFAULT CURRENT_TIMESTAMP"]⟩

/-- The implicit update-timestamp column. -/
def updatedAtColumn : ColumnSpec :=
  ⟨"updated_at", "DATETIME",
    ["DEFAULT CURRENT_TIMESTAMP", "ON UPDATE CURRENT_TIMESTAMP"]⟩

/-- The column generated for one declared body property: `NOT NULL` when
the name is listed in `body.required` (JS: `body.required &&
body.required.includes(name)`), followed by the per-property
constraints. -/
def propColumn (body : BodySchema) (entry : String × PropertySpec) :
    ColumnSpec :=
  let isRequired := match body.required with
    | some rs => rs.contains entry.1
    | none => false
  { name := entry.1
    type := mapTypeToDbType entry.2.type
    constraints :=
      (if isRequired then ["NOT NULL"] else []) ++ extractConstraints entry.2 }

/-- `generateTableSchema(userId, projectId, endpointPath, body)`: hashed
`api_`-named table, the three implicit columns, then one column per
declared property (`if (body && body.properties)` guards the loop). -/
def generateTableSchema (md5hex : String → String) (userId projectId : Nat)
    (endpointPath : String) (body : Option BodySchema) : TableSchema :=
  let tableName :=
    "api_" ++ generateTableNameHash md5hex userId projectId endpointPath
  let propColumns := match body with
    | some b =>
      match b.properties with
      | some props => props.map (propColumn b)
      | none => []
    | none => []
  { tableName := tableName
    columns := idColumn :: createdAtColumn :: updatedAtColumn :: propColumns
    primaryKey := some "id" }

/-- C8: `generateTableSchema` is a pure function — identical inputs give
identical output, including the table name — whose column list starts
with the three implicit columns `id`, `created_at`, `updated_at` in that
order, followed by one column per declared property; property types map
through `string→TEXT, number→DOUBLE, integer→INT, boolean→BOOLEAN,
date/datetime→DATETIME`, anything unrecognized to `TEXT`, and
required/min-length/max-length render as column constraints. -/
theorem C8_generateTableSchema_pure (md5hex : String → String)
    (u p : Nat) (path : String) (req : Option (List String))
    (props : List (String × PropertySpec)) :
    generateTableSchema md5hex u p path (some ⟨req, some props⟩)
      = generateTableSchema md5hex u p path (some ⟨req, some props⟩) ∧
    (generateTableSchema md5hex u p path (some ⟨req, some props⟩)).tableName
      = "api_" ++ String.mk ((md5hex s!"{u}_{p}_{path}").data.take 10) ∧
    (generateTableSchema md5hex u p path (some ⟨req, some props⟩)).columns
      = idColumn :: createdAtColumn :: updatedAtColumn
          :: props.map (propColumn ⟨req, some props⟩) ∧
    (∀ nm ps, (propColumn (⟨req, some props⟩ : BodySchema) (nm, ps)).name = nm
      ∧ (propColumn (⟨req, some props⟩ : BodySchema) (nm, ps)).type
          = mapTypeToDbType ps.type) ∧
    (∀ nm ps rs, req = some rs → rs.contains nm →
      "NOT NULL" ∈ (propColumn (⟨req, some props⟩ : BodySchema)
        (nm, ps)).constraints) ∧
    (∀ nm ps n, ps.minLength = some n → n ≠ 0 →
      s!"MIN_LENGTH({n})" ∈ (propColumn (⟨req, some props⟩ : BodySchema)
        (nm, ps)).constraints) ∧
    (∀ nm ps n, ps.maxLength = some n → n ≠ 0 →
      s!"MAX_LENGTH({n})" ∈ (propColumn (⟨req, some props⟩ : BodySchema)
        (nm, ps)).constraints) ∧
    mapTypeToDbType "string" = "TEXT" ∧ mapTypeToDbType "number" = "DOUBLE" ∧
    mapTypeToDbType "integer" = "INT" ∧ mapTypeToDbType "boolean" = "BOOLEAN" ∧
    mapTypeToDbType "date" = "DATETIME" ∧
    mapTypeToDbType "datetime" = "DATETIME" ∧
    (∀ s : String,
      toLowerStr s ∉ (["string", "number", "integer", "boolean", "date",
        "datetime"] : List String) → mapTypeToDbType s = "TEXT") := by
  refine ⟨rfl, rfl, rfl, fun nm ps => ⟨rfl, rfl⟩, ?_, ?_, ?_,
    by decide, by decide, by decide, by decide, by decide, by decide, ?_⟩
  · intro nm ps rs hreq hmem
    simp only [propColumn, hreq]
    rw [if_pos hmem]
    exact List.mem_append_left _ (List.mem_singleton_self _)
  · intro nm ps n hmin hn
    simp [propColumn, extractConstraints, hmin, truthyNum, hn]
  · intro nm ps n hmax hn
    simp [propColumn, extractConstraints, hmax, truthyNum, hn]
  · intro s hs
    unfold mapTypeToDbType
    simp only [List.mem_cons, List.not_mem_nil, or_false] at hs
    push_neg at hs
    split <;> simp_all

/-- A fixed stand-in for the external md5 hex digest. -/
def testDigest : String → String := fun _ =>
  "0123456789abcdef0123456789abcdef"

/-- Witness for C8: the schema for one required `string` property named
`name`, evaluated concretely. -/
theorem C8_witness :
    (generateTableSchema testDigest 1 2 "/widgets"
        (some ⟨some ["name"],
          some [("name", ⟨"string", none, none, false⟩)]⟩)).columns
      = idColumn :: createdAtColumn :: updatedAtColumn
          :: [("name", (⟨"string", none, none, false⟩ : PropertySpec))].map
            (propColumn ⟨some ["name"],
              some [("name", ⟨"string", none, none, false⟩)]⟩) ∧
    mapTypeToDbType "custom-shape" = "TEXT" := by
  have h := C8_generateTableSchema_pure testDigest 1 2 "/widgets"
    (some ["name"]) [("name", ⟨"string", none, none, false⟩)]
  exact ⟨h.2.2.1, h.2.2.2.2.2.2.2.2.2.2.2.2.2 "custom-shape" (by decide)⟩

/-! ## Project provisioner (`project.service.ts`, second revision)

The relational store is modelled as explicit row lists; the transaction
in `createProject` is modelled by running its body to an `Except` and
restoring the original state on error.  The Cloudflare service is
modelled by a failure flag plus the `dnsRecords`/`deregisterCalls` lists
recording the external calls actually made. -/

/-- A `users` row (the fields `createProject` reads). -/
structure UserRow where
  user_id : Nat
  password_hash : String
  deriving Repr, DecidableEq

/-- A `projects` row (`ProjectsTable`). -/
structure ProjectRow where
  project_id : Nat
  user_id : Nat
  project_name : String
  project_description : Option String
  db_type : String
  db_instance_type : String
  subdomain_url : Option String
  isDeleted : Bool
  deriving Repr, DecidableEq

/-- A `project_dbs` row (`ProjectDbsTable`). -/
structure ProjectDbRow where
  project_id : Nat
  user_id : Nat
  db_creds : String
  isDeleted : Bool
  deriving Repr, DecidableEq

/-- The relational store plus the external DNS provider's observable
state: `dnsRecords` holds the records created, `deregisterCalls` logs
every `deleteSubdomain` invocation. -/
structure ProjectState where
  users : List UserRow
  projects : List ProjectRow
  project_dbs : List ProjectDbRow
  dnsRecords : List String
  deregisterCalls : List String
  nextProjectId : Nat
  deriving Repr, DecidableEq

/-- Input of `createProject` (`Insertable<ProjectsTable> & {db_creds}`),
with the credentials already JSON-serialized. -/
structure ProjectInput where
  user_id : Nat
  project_name : String
  project_description : Option String
  db_type : String
  db_instance_type : String
  credsJson : String
  deriving Repr, DecidableEq

/-- Failure modes of the provisioning transaction. -/
inductive ProjectError where
  | userNotFound
  | duplicateProject
  | dnsFailure
  | fetchFailed
  deriving Repr, DecidableEq

/-- `generateSubdomain` from `src/utils/subdomain.ts`: sha256 of
`"{user_id}-{project_id}-{timestamp}"`, first 16 hex chars, non-alphanumerics
to dashes, lowercased, forced to start with a letter (`p`). -/
def generateSubdomain (sha256hex : String → String)
    (user_id project_id timestamp : Nat) : String :=
  let input := s!"{user_id}-{project_id}-{timestamp}"
  let hash := sha256hex input
  let chars := ((hash.data.take 16).map
    (fun ch => if ch.isAlphanum then ch else '-')).map Char.toLower
  match chars with
  | [] => "p"
  | c :: rest =>
    if c.isAlpha then String.mk (c :: rest) else String.mk ('p' :: rest)

/-- `CloudflareService.createSubdomain` (`src/unnamed/part_008`): creates
an A record `subdomain.baseDomain` and returns the full domain; a
provider failure surfaces as an error (`none`). -/
def createSubdomain (dnsFails : Bool) (baseDomain subdomain : String) :
    Option String :=
  if dnsFails then none else some (subdomain ++ "." ++ baseDomain)

/-- The project row `createProject` inserts (subdomain still null,
`isDeleted := false` forced by the payload). -/
def insertedProjectRow (st : ProjectState) (values : ProjectInput) :
    ProjectRow :=
  { project_id := st.nextProjectId
    user_id := values.user_id
    project_name := values.project_name
    project_description := values.project_description
    db_type := values.db_type
    db_instance_type := values.db_instance_type
    subdomain_url := none
    isDeleted := false }

/-- The `UPDATE projects SET subdomain_url = ... WHERE project_id = ...`
step of the transaction. -/
def setSubdomainUrl (pid : Nat) (url : String) (l : List ProjectRow) :
    List ProjectRow :=
  l.map (fun p =>
    if p.project_id == pid then { p with subdomain_url := some url } else p)

/-- The body of `createProject`'s transaction: fetch the owner's password
hash, encrypt the credentials, insert the project (subdomain still null),
derive and register the subdomain, set `subdomain_url`, insert the
`project_dbs` row, and re-fetch the created project. -/
def createProjectTx (c : BlockCipherIv) (iv : List Nat)
    (sha256hex : String → String) (now : Nat) (baseDomain : String)
    (dnsFails : Bool) (st : ProjectState) (values : ProjectInput) :
    Except ProjectError (ProjectRow × ProjectState) :=
  match st.users.find? (fun u => u.user_id == values.user_id) with
  | none => .error .userNotFound
  | some user =>
    let encryptedCreds := encrypt c iv values.credsJson user.password_hash
    if st.projects.any (fun p =>
        p.user_id == values.user_id && p.project_name == values.project_name)
    then .error .duplicateProject
    else
      let projectId := st.nextProjectId
      let projects1 := st.projects ++ [insertedProjectRow st values]
      let subdomain := generateSubdomain sha256hex values.user_id projectId now
      match createSubdomain dnsFails baseDomain subdomain with
      | none => .error .dnsFailure
      | some subdomainUrl =>
        let projects2 := setSubdomainUrl projectId subdomainUrl projects1
        let dbRow : ProjectDbRow :=
          ⟨projectId, values.user_id, encryptedCreds, false⟩
        let st2 : ProjectState :=
          { st with
            projects := projects2
            project_dbs := st.project_dbs ++ [dbRow]
            dnsRecords := st.dnsRecords ++ [subdomainUrl]
            nextProjectId := projectId + 1 }
        match projects2.find? (fun p => p.project_id == projectId) with
        | none => .error .fetchFailed
        | some createdProject => .ok (createdProject, st2)

/-- `createProject`: the transaction commits on success and rolls back —
restoring the pre-call relational state — when its body throws. -/
def createProject (c : BlockCipherIv) (iv : List Nat)
    (sha256hex : String → String) (now : Nat) (baseDomain : String)
    (dnsFails : Bool) (st : ProjectState) (values : ProjectInput) :
    Except ProjectError ProjectRow × ProjectState :=
  match createProjectTx c iv sha256hex now baseDomain dnsFails st values with
  | .ok (row, st2) => (.ok row, st2)
  | .error e => (.error e, st)

/-- `deleteProject` (`project.service.ts`, lines 530–584): fetch-and-check
inside a transaction, then soft-delete the project row and the
`project_dbs` row.  The `cloudflareService.deleteSubdomain` call in the
source is commented out — only a local log runs — so the DNS state is
never touched. -/
def deleteProject (st : ProjectState) (project_id user_id : Nat) :
    Option ProjectRow × ProjectState :=
  match st.projects.find? (fun p =>
      p.project_id == project_id && p.user_id == user_id
        && p.isDeleted == false) with
  | none => (none, st)
  | some projectToDelete =>
    let projects1 := st.projects.map (fun p =>
      if p.project_id == project_id && p.user_id == user_id then
        { p with isDeleted := true } else p)
    let project_dbs1 := st.project_dbs.map (fun d =>
      if d.project_id == project_id && d.user_id == user_id then
        { d with isDeleted := true } else d)
    (some projectToDelete,
      { st with projects := projects1, project_dbs := project_dbs1 })

/-! ### List helpers for the provisioning proofs -/

theorem find?_append_left_none {α} {p : α → Bool} {l1 l2 : List α}
    (h : ∀ a ∈ l1, p a = false) : (l1 ++ l2).find? p = l2.find? p := by
  induction l1 with
  | nil => rfl
  | cons a tl ih =>
    rw [List.cons_append, List.find?_cons]
    rw [h a (List.mem_cons_self _ _)]
    exact ih (fun x hx => h x (List.mem_cons_of_mem _ hx))

theorem filter_eq_nil_of_none {α} {p : α → Bool} {l : List α}
    (h : ∀ a ∈ l, p a = false) : l.filter p = [] := by
  induction l with
  | nil => rfl
  | cons a tl ih =>
    rw [List.filter_cons, h a (List.mem_cons_self _ _)]
    exact ih (fun x hx => h x (List.mem_cons_of_mem _ hx))

theorem filter_append_of_none {α} {p : α → Bool} {l1 l2 : List α}
    (h : ∀ a ∈ l1, p a = false) : (l1 ++ l2).filter p = l2.filter p := by
  rw [List.filter_append, filter_eq_nil_of_none h, List.nil_append]

/-- Rows already in the table keep their id and stay unmatched by the new
project id after the `subdomain_url` update. -/
theorem setSubdomainUrl_old_unmatched (st : ProjectState) (url : String)
    (hfresh : ∀ p ∈ st.projects, p.project_id ≠ st.nextProjectId) :
    ∀ q ∈ setSubdomainUrl st.nextProjectId url st.projects,
      (q.project_id == st.nextProjectId) = false := by
  intro q hq
  obtain ⟨p, hp, rfl⟩ := List.mem_map.mp hq
  have hne : p.project_id ≠ st.nextProjectId := hfresh p hp
  have hbeq : (p.project_id == st.nextProjectId) = false := by
    simpa using hne
  simp [hbeq]

/-- After the update, the freshly inserted row is the unique row carrying
the new project id, and it carries the subdomain URL. -/
theorem setSubdomainUrl_insert_eq (st : ProjectState)
    (values : ProjectInput) (url : String) :
    setSubdomainUrl st.nextProjectId url
        (st.projects ++ [insertedProjectRow st values])
      = setSubdomainUrl st.nextProjectId url st.projects
          ++ [{ insertedProjectRow st values with subdomain_url := some url }]
      := by
  unfold setSubdomainUrl
  rw [List.map_append]
  congr 1
  simp [insertedProjectRow]

/-- C1: for every valid creation input, a successful `createProject`
leaves exactly one `projects` row and exactly one `project_dbs`
(credential) row for the new project id, and the returned project's
`subdomain_url` is non-null; if the DNS registration call fails, the
whole transaction aborts and the state — hence zero rows of either
kind for the new project — is unchanged. -/
theorem C1_createProject_provisioning (c : BlockCipherIv) (iv : List Nat)
    (sha256hex : String → String) (now : Nat) (baseDomain : String)
    (dnsFails : Bool) (st : ProjectState) (values : ProjectInput)
    (hfreshP : ∀ p ∈ st.projects, p.project_id ≠ st.nextProjectId)
    (hfreshD : ∀ d ∈ st.project_dbs, d.project_id ≠ st.nextProjectId) :
    (∀ row st2,
      createProject c iv sha256hex now baseDomain dnsFails st values
        = (.ok row, st2) →
      (st2.projects.filter
        (fun p => p.project_id == row.project_id)).length = 1 ∧
      (st2.project_dbs.filter
        (fun d => d.project_id == row.project_id)).length = 1 ∧
      row.subdomain_url.isSome = true) ∧
    (dnsFails = true →
      ∃ e, createProject c iv sha256hex now baseDomain dnsFails st values
        = (.error e, st)) := by
  cases hu : st.users.find? (fun u => u.user_id == values.user_id) with
  | none =>
    constructor
    · intro row st2 hok
      rw [createProject, createProjectTx, hu] at hok
      simp at hok
    · intro _
      refine ⟨.userNotFound, ?_⟩
      rw [createProject, createProjectTx, hu]
  | some user =>
    cases hdup : st.projects.any (fun p =>
        p.user_id == values.user_id
          && p.project_name == values.project_name) with
    | true =>
      constructor
      · intro row st2 hok
        rw [createProject, createProjectTx, hu] at hok
        simp [hdup] at hok
      · intro _
        refine ⟨.duplicateProject, ?_⟩
        rw [createProject, createProjectTx, hu]
        simp [hdup]
    | false =>
      cases hdns : dnsFails with
      | true =>
        constructor
        · intro row st2 hok
          rw [createProject, createProjectTx, hu] at hok
          simp [hdup, createSubdomain] at hok
        · intro _
          refine ⟨.dnsFailure, ?_⟩
          rw [createProject, createProjectTx, hu]
          simp [hdup, createSubdomain]
      | false =>
        constructor
        · intro row st2 hok
          rw [createProject, createProjectTx, hu] at hok
          simp only [hdup, Bool.false_eq_true, if_false, createSubdomain,
            setSubdomainUrl_insert_eq] at hok
          rw [find?_append_left_none
            (setSubdomainUrl_old_unmatched st _ hfreshP)] at hok
          rw [List.find?_cons_of_pos _ (by simp [insertedProjectRow])] at hok
          simp only [Prod.mk.injEq, Except.ok.injEq] at hok
          obtain ⟨hrow, hst2⟩ := hok
          subst hrow
          subst hst2
          refine ⟨?_, ?_, rfl⟩
          · show (((setSubdomainUrl st.nextProjectId _ st.projects
                ++ [_]).filter _).length = 1)
            rw [filter_append_of_none]
            · simp [insertedProjectRow]
            · intro a ha
              have := setSubdomainUrl_old_unmatched st _ hfreshP a ha
              simpa [insertedProjectRow] using this
          · show ((st.project_dbs ++ [_]).filter _).length = 1
            rw [filter_append_of_none]
            · simp [insertedProjectRow]
            · intro a ha
              have hne := hfreshD a ha
              simpa [insertedProjectRow] using hne
        · intro hcontra
          cases hcontra

/-- A one-user empty-project state for the C1 witness. -/
def c1State : ProjectState :=
  { users := [⟨1, "pw"⟩], projects := [], project_dbs := [],
    dnsRecords := [], deregisterCalls := [], nextProjectId := 1 }

/-- A concrete creation input for the C1 witness. -/
def c1Input : ProjectInput :=
  ⟨1, "acme", none, "mysql", "SMAAPI_GEN", "creds"⟩

/-- Witness for C1: freshness hypotheses hold concretely, and with the
DNS call failing the transaction aborts leaving the state untouched. -/
theorem C1_witness :
    (∀ p ∈ c1State.projects, p.project_id ≠ c1State.nextProjectId) ∧
    (∀ d ∈ c1State.project_dbs, d.project_id ≠ c1State.nextProjectId) ∧
    (∃ e, createProject testCipher testIv testDigest 99 "example.com" true
        c1State c1Input = (.error e, c1State)) :=
  ⟨by decide, by decide,
    (C1_createProject_provisioning testCipher testIv testDigest 99
      "example.com" true c1State c1Input (by decide) (by decide)).2 rfl⟩

/-- A state holding one live project with a registered subdomain, used to
settle C9. -/
def c9State : ProjectState :=
  { users := [⟨1, "pw"⟩]
    projects := [⟨1, 1, "acme", none, "mysql", "SMAAPI_GEN",
      some "abc.example.com", false⟩]
    project_dbs := [⟨1, 1, "blob", false⟩]
    dnsRecords := ["abc.example.com"]
    deregisterCalls := []
    nextProjectId := 2 }

/-- Counterexample for C9 as stated: deleting an owned, live project that
has a registered subdomain succeeds, yet no `deleteSubdomain` call is
ever made to the DNS provider (the call is commented out in the source)
— the deregistration log stays empty and the DNS record survives. -/
theorem C9_counterexample :
    (deleteProject c9State 1 1).1
      = some ⟨1, 1, "acme", none, "mysql", "SMAAPI_GEN",
          some "abc.example.com", false⟩ ∧
    (deleteProject c9State 1 1).2.deregisterCalls = [] ∧
    (deleteProject c9State 1 1).2.dnsRecords = ["abc.example.com"] := by
  decide

/-- C9 (amended): for an existing, non-deleted, owned project,
`deleteProject` soft-deletes the project row and its `project_dbs` row
together, without contacting the DNS provider (the deregistration call is
disabled in the source; only a local log runs); for an absent, deleted or
non-owned project it returns `none` and changes nothing. -/
theorem C9_deleteProject_soft_delete_saga (st : ProjectState)
    (pid uid : Nat) :
    (∀ row,
      st.projects.find? (fun p => p.project_id == pid && p.user_id == uid
          && p.isDeleted == false) = some row →
      (deleteProject st pid uid).1 = some row ∧
      (∀ p ∈ (deleteProject st pid uid).2.projects,
        p.project_id = pid → p.user_id = uid → p.isDeleted = true) ∧
      (∀ d ∈ (deleteProject st pid uid).2.project_dbs,
        d.project_id = pid → d.user_id = uid → d.isDeleted = true) ∧
      (deleteProject st pid uid).2.dnsRecords = st.dnsRecords ∧
      (deleteProject st pid uid).2.deregisterCalls = st.deregisterCalls) ∧
    (st.projects.find? (fun p => p.project_id == pid && p.user_id == uid
        && p.isDeleted == false) = none →
      deleteProject st pid uid = (none, st)) := by
  constructor
  · intro row hf
    have hD : deleteProject st pid uid
        = (some row,
          { st with
            projects := st.projects.map (fun p =>
              if p.project_id == pid && p.user_id == uid then
                { p with isDeleted := true } else p)
            project_dbs := st.project_dbs.map (fun d =>
              if d.project_id == pid && d.user_id == uid then
                { d with isDeleted := true } else d) }) := by
      rw [deleteProject, hf]
    rw [hD]
    refine ⟨rfl, ?_, ?_, rfl, rfl⟩
    · intro p hp hpid huid
      obtain ⟨p0, hp0, rfl⟩ := List.mem_map.mp hp
      cases hc : (p0.project_id == pid && p0.user_id == uid) with
      | true => simp [hc]
      | false =>
        simp only [hc, Bool.false_eq_true, if_false] at hpid huid ⊢
        rw [hpid, huid] at hc
        simp at hc
    · intro d hd hdid huid
      obtain ⟨d0, hd0, rfl⟩ := List.mem_map.mp hd
      cases hc : (d0.project_id == pid && d0.user_id == uid) with
      | true => simp [hc]
      | false =>
        simp only [hc, Bool.false_eq_true, if_false] at hdid huid ⊢
        rw [hdid, huid] at hc
        simp at hc
  · intro hf
    simp only [deleteProject, hf]

/-- Witness for C9 at the concrete one-project state. -/
theorem C9_witness :
    c9State.projects.find? (fun p => p.project_id == 1 && p.user_id == 1
        && p.isDeleted == false)
      = some ⟨1, 1, "acme", none, "mysql", "SMAAPI_GEN",
          some "abc.example.com", false⟩ ∧
    ((deleteProject c9State 1 1).1
        = some ⟨1, 1, "acme", none, "mysql", "SMAAPI_GEN",
            some "abc.example.com", false⟩ ∧
      (∀ p ∈ (deleteProject c9State 1 1).2.projects,
        p.project_id = 1 → p.user_id = 1 → p.isDeleted = true) ∧
      (∀ d ∈ (deleteProject c9State 1 1).2.project_dbs,
        d.project_id = 1 → d.user_id = 1 → d.isDeleted = true) ∧
      (deleteProject c9State 1 1).2.dnsRecords = c9State.dnsRecords ∧
      (deleteProject c9State 1 1).2.deregisterCalls
        = c9State.deregisterCalls) :=
  ⟨by decide,
    (C9_deleteProject_soft_delete_saga c9State 1 1).1 _ (by decide)⟩

/-! ## API definition & version manager (`apis.service.ts`)

Relational rows (`apis`) and MongoDB documents are explicit lists; a
`createApi`/`updateApi` run is a pure function of the state plus a
failure flag for the document-store write. -/

/-- The `parameters` payload of a document: an opaque query blob plus the
body schema the synthesizer consumes. -/
structure ApiParameters where
  query : Option String
  body : Option BodySchema
  deriving Repr, DecidableEq

/-- A relational `apis` row (`ApisTable`). -/
structure ApiRow where
  api_id : Nat
  user_id : Nat
  project_id : Nat
  api_name : String
  api_description : Option String
  endpoint_path : String
  http_method : String
  endpoint_description : Option String
  version_number : Nat
  api_status : String
  created_at : Nat
  isDeleted : Bool
  deriving Repr, DecidableEq

/-- One entry of a document's `versions` array (the pre-update
snapshot pushed by `updateApi`). -/
structure VersionSnapshot where
  version_number : Nat
  api_name : String
  api_description : Option String
  endpoint_path : String
  http_method : String
  endpoint_description : Option String
  middleware_config : Option String
  parameters : Option ApiParameters
  allowedFilters : Option (List String)
  responses : Option String
  created_at : Nat
  deriving Repr, DecidableEq

/-- A MongoDB `Api` document, carrying exactly the paths the mongoose
`Api` schema (`src/unnamed/part_009`) declares.  The schema declares no
`container_info` path, and the connection uses mongoose's default strict
mode, so an update naming that path is silently stripped — the stored
document never holds a container record. -/
structure ApiDoc where
  api_id : Nat
  user_id : Nat
  project_id : Nat
  api_name : String
  api_description : Option String
  endpoint_path : String
  http_method : String
  endpoint_description : Option String
  middleware_config : Option String
  parameters : Option ApiParameters
  allowedFilters : Option (List String)
  responses : Option String
  version_number : Nat
  api_status : String
  created_at : Nat
  isDeleted : Bool
  versions : List VersionSnapshot
  deriving Repr, DecidableEq

/-- The two stores for API definitions. -/
structure ApiState where
  apis : List ApiRow
  docs : List ApiDoc
  nextApiId : Nat
  deriving Repr, DecidableEq

/-- `IApiBody`: the creation payload. -/
structure ApiBody where
  project_id : Nat
  api_name : String
  api_description : Option String
  endpoint_path : String
  http_method : String
  endpoint_description : Option String
  middleware_config : Option String
  parameters : Option ApiParameters
  allowedFilters : Option (List String)
  responses : Option String
  deriving Repr, DecidableEq

/-- `IApiUpdateBody`: the update payload; `none` models a field absent
from the request (JS `undefined`). -/
structure ApiUpdateBody where
  project_id : Option Nat
  api_name : Option String
  api_description : Option String
  endpoint_path : Option String
  http_method : Option String
  endpoint_description : Option String
  middleware_config : Option String
  parameters : Option ApiParameters
  allowedFilters : Option (List String)
  responses : Option String
  api_status : Option String
  deriving Repr, DecidableEq

/-- Error kinds of the API manager (validation, missing rows, failed
mirror write). -/
inductive ApiError where
  | validation
  | notFoundSql
  | notFoundMongo
  | documentSync
  deriving Repr, DecidableEq

/-- The fixed HTTP verb set of `validateApiPayload`. -/
def validMethods : List String :=
  ["GET", "POST", "PUT", "DELETE", "PATCH", "OPTIONS", "HEAD"]

/-- JS truthiness of an optional string (absence and `""` are falsy). -/
def truthyStr : Option String → Bool
  | some s => s != ""
  | none => false

/-- JS `x || null` applied to an optional string. -/
def jsOrNull : Option String → Option String
  | some s => if s == "" then none else some s
  | none => none

/-- `validateApiPayload`: required fields must be truthy and the method
must belong to the verb set. -/
def validateApiPayload (values : ApiBody) : Except ApiError Unit :=
  if values.project_id == 0 then .error .validation
  else if values.api_name == "" then .error .validation
  else if values.http_method == "" then .error .validation
  else if values.endpoint_path == "" then .error .validation
  else if !(validMethods.contains values.http_method) then .error .validation
  else .ok ()

/-- `validateApiUpdatePayload`: at least one updatable field must be
present; a truthy `http_method` must belong to the verb set. -/
def validateApiUpdatePayload (values : ApiUpdateBody) :
    Except ApiError Unit :=
  if values.project_id.isNone && values.api_name.isNone
      && values.api_description.isNone && values.endpoint_path.isNone
      && values.http_method.isNone && values.endpoint_description.isNone
      && values.middleware_config.isNone && values.parameters.isNone
      && values.allowedFilters.isNone && values.responses.isNone
      && values.api_status.isNone
  then .error .validation
  else
    match values.http_method with
    | some m =>
      if m != "" && !(validMethods.contains m) then .error .validation
      else .ok ()
    | none => .ok ()

/-- `createApi`: relational insert of a `version_number = 1`,
`status = draft` row inside a transaction, then the mirror document
insert with the rich payload and an empty `versions` list; a mirror
failure (`mongoFails`) surfaces as an error while the committed
relational row stays. -/
def createApi (values : ApiBody) (user_id now : Nat) (mongoFails : Bool)
    (st : ApiState) : Except ApiError ApiRow × ApiState :=
  match validateApiPayload values with
  | .error e => (.error e, st)
  | .ok _ =>
    let row : ApiRow :=
      { api_id := st.nextApiId
        user_id := user_id
        project_id := values.project_id
        api_name := values.api_name
        api_description := jsOrNull values.api_description
        endpoint_path := values.endpoint_path
        http_method := values.http_method
        endpoint_description := jsOrNull values.endpoint_description
        version_number := 1
        api_status := "draft"
        created_at := now
        isDeleted := false }
    let stSql : ApiState :=
      { st with apis := st.apis ++ [row], nextApiId := st.nextApiId + 1 }
    if mongoFails then (.error .documentSync, stSql)
    else
      let doc : ApiDoc :=
        { api_id := row.api_id
          user_id := row.user_id
          project_id := row.project_id
          api_name := row.api_name
          api_description := row.api_description
          endpoint_path := row.endpoint_path
          http_method := row.http_method
          endpoint_description := row.endpoint_description
          middleware_config := values.middleware_config
          parameters := values.parameters
          allowedFilters := values.allowedFilters
          responses := values.responses
          version_number := row.version_number
          api_status := row.api_status
          created_at := row.created_at
          isDeleted := false
          versions := [] }
      (.ok row, { stSql with docs := stSql.docs ++ [doc] })

/-- The relational `UPDATE apis SET ...` payload applied to a row:
present fields overwrite, and when the version increments the concrete
new number (computed once from the fetched row) is written. -/
def applyUpdatePayload (values : ApiUpdateBody)
    (versionOverride : Option Nat) (r : ApiRow) : ApiRow :=
  { r with
    project_id := values.project_id.getD r.project_id
    api_name := values.api_name.getD r.api_name
    api_description := match values.api_description with
      | some s => some s
      | none => r.api_description
    endpoint_path := values.endpoint_path.getD r.endpoint_path
    http_method := values.http_method.getD r.http_method
    endpoint_description := match values.endpoint_description with
      | some s => some s
      | none => r.endpoint_description
    api_status := values.api_status.getD r.api_status
    version_number := versionOverride.getD r.version_number }

/-- The pre-update snapshot `updateApi` pushes onto `versions`. -/
def mkVersionSnapshot (d : ApiDoc) : VersionSnapshot :=
  { version_number := d.version_number
    api_name := d.api_name
    api_description := d.api_description
    endpoint_path := d.endpoint_path
    http_method := d.http_method
    endpoint_description := d.endpoint_description
    middleware_config := d.middleware_config
    parameters := d.parameters
    allowedFilters := d.allowedFilters
    responses := d.responses
    created_at := d.created_at }

/-- The `$set` (and optional `$push`) `updateApi` issues to the document
store: scalar fields come from the relational result, rich payload fields
from the request with `??` fallback to the existing document, and
`version_number` is copied from the relational result. -/
def applyDocUpdate (values : ApiUpdateBody) (result : ApiRow)
    (shouldInc : Bool) (d : ApiDoc) : ApiDoc :=
  { d with
    project_id := result.project_id
    api_name := result.api_name
    api_description := result.api_description
    endpoint_path := result.endpoint_path
    http_method := result.http_method
    endpoint_description := result.endpoint_description
    middleware_config := match values.middleware_config with
      | some m => some m
      | none => d.middleware_config
    parameters := match values.parameters with
      | some p => some p
      | none => d.parameters
    allowedFilters := match values.allowedFilters with
      | some f => some f
      | none => d.allowedFilters
    responses := match values.responses with
      | some r2 => some r2
      | none => d.responses
    version_number := result.version_number
    api_status := result.api_status
    versions :=
      if shouldInc then d.versions ++ [mkVersionSnapshot d] else d.versions }

/-- The relational `UPDATE ... WHERE api_id AND user_id` over the whole
table (matched rows receive the payload). -/
def sqlUpdatedApis (values : ApiUpdateBody) (versionOverride : Option Nat)
    (api_id user_id : Nat) (l : List ApiRow) : List ApiRow :=
  l.map (fun r =>
    if r.api_id == api_id && r.user_id == user_id then
      applyUpdatePayload values versionOverride r else r)

/-- The document-store `findOneAndUpdate` on `api_id` (the id is unique
in the collection). -/
def mongoUpdatedDocs (values : ApiUpdateBody) (result : ApiRow)
    (shouldInc : Bool) (api_id : Nat) (l : List ApiDoc) : List ApiDoc :=
  l.map (fun d =>
    if d.api_id == api_id then
      applyDocUpdate values result shouldInc d else d)

/-- `updateApi`: validate, fetch the row (owner-filtered, non-deleted),
compute `shouldIncrementVersion` from the truthiness of
`endpoint_path`/`http_method`/`endpoint_description`, apply the
relational update and re-fetch inside the transaction, then mirror to
the document store, snapshotting the pre-update document when the
version increments. -/
def updateApi (api_id : Nat) (values : ApiUpdateBody) (user_id : Nat)
    (st : ApiState) : Except ApiError ApiRow × ApiState :=
  match validateApiUpdatePayload values with
  | .error e => (.error e, st)
  | .ok _ =>
    match st.apis.find? (fun r => r.api_id == api_id
        && r.user_id == user_id && r.isDeleted == false) with
    | none => (.error .notFoundSql, st)
    | some existingApi =>
      let shouldInc := truthyStr values.endpoint_path
        || truthyStr values.http_method
        || truthyStr values.endpoint_description
      let versionOverride :=
        if shouldInc then some (existingApi.version_number + 1) else none
      let apis1 :=
        sqlUpdatedApis values versionOverride api_id user_id st.apis
      match apis1.find? (fun r => r.api_id == api_id) with
      | none => (.error .notFoundSql, st)
      | some updatedApi =>
        match st.docs.find? (fun d => d.api_id == api_id) with
        | none => (.error .notFoundMongo, { st with apis := apis1 })
        | some _ =>
          (.ok updatedApi,
            { st with
              apis := apis1
              docs := mongoUpdatedDocs values updatedApi shouldInc api_id
                st.docs })

/-! ### Helpers for the update proofs -/

theorem find?_map_of_pred_comm {α} {q : α → Bool} {g : α → α}
    (hq : ∀ x, q (g x) = q x) (l : List α) :
    (l.map g).find? q = (l.find? q).map g := by
  induction l with
  | nil => rfl
  | cons a tl ih =>
    rw [List.map_cons, List.find?_cons, List.find?_cons, hq a]
    cases hqa : q a with
    | true => rfl
    | false => exact ih

theorem find?_eq_some_of_unique {α} {q : α → Bool} {l : List α} {r : α}
    (hmem : r ∈ l) (hq : q r = true)
    (huniq : ∀ x ∈ l, q x = true → x = r) : l.find? q = some r := by
  induction l with
  | nil => cases hmem
  | cons a tl ih =>
    rw [List.find?_cons]
    cases hqa : q a with
    | true => exact congrArg some (huniq a (List.mem_cons_self _ _) hqa)
    | false =>
      have hra : r ≠ a := fun he => by rw [he] at hq; rw [hq] at hqa; cases hqa
      have hmem2 : r ∈ tl := by
        cases List.mem_cons.mp hmem with
        | inl h => exact absurd h hra
        | inr h => exact h
      exact ih hmem2 (fun x hx hqx => huniq x (List.mem_cons_of_mem _ hx) hqx)

/-- The relational re-fetch after the update returns the updated row when
the row's id is unique in the table. -/
theorem sqlUpdatedApis_find? (values : ApiUpdateBody)
    (vo : Option Nat) (api_id user_id : Nat) (l : List ApiRow) (r : ApiRow)
    (hfind1 : l.find? (fun x => x.api_id == api_id) = some r)
    (h1 : r.api_id = api_id) (h2 : r.user_id = user_id) :
    (sqlUpdatedApis values vo api_id user_id l).find?
        (fun x => x.api_id == api_id)
      = some (applyUpdatePayload values vo r) := by
  unfold sqlUpdatedApis
  rw [find?_map_of_pred_comm, hfind1]
  · simp [h1, h2]
  · intro x
    by_cases hc : (x.api_id == api_id && x.user_id == user_id) = true
    · rw [if_pos hc]
      rfl
    · rw [if_neg hc]

/-- The full run of `updateApi` in the found case: the relational update
applies the payload with the version override computed from the fetched
row, the result row is that updated row, and the document store receives
the mirror update derived from the relational result. -/
theorem updateApi_run (api_id user_id : Nat) (values : ApiUpdateBody)
    (st : ApiState) (r : ApiRow) (d : ApiDoc)
    (shouldInc : Bool) (vo : Option Nat)
    (hsi : shouldInc = (truthyStr values.endpoint_path
      || truthyStr values.http_method
      || truthyStr values.endpoint_description))
    (hvo : vo = if shouldInc then some (r.version_number + 1) else none)
    (hvalid : validateApiUpdatePayload values = .ok ())
    (hrow : st.apis.find? (fun x => x.api_id == api_id
        && x.user_id == user_id && x.isDeleted == false) = some r)
    (hapisOnly : ∀ x ∈ st.apis, x.api_id = api_id → x = r)
    (hdoc : st.docs.find? (fun x => x.api_id == api_id) = some d) :
    updateApi api_id values user_id st
      = (.ok (applyUpdatePayload values vo r),
        { st with
          apis := sqlUpdatedApis values vo api_id user_id st.apis
          docs := mongoUpdatedDocs values (applyUpdatePayload values vo r)
            shouldInc api_id st.docs }) := by
  have hmem : r ∈ st.apis := List.mem_of_find?_eq_some hrow
  have hq3 := List.find?_some hrow
  simp only [Bool.and_eq_true, beq_iff_eq] at hq3
  have hqa := hq3.1.1
  have hqb := hq3.1.2
  have hfind1 : st.apis.find? (fun x => x.api_id == api_id) = some r :=
    find?_eq_some_of_unique hmem (by simp [hqa])
      (fun x hx hqx => hapisOnly x hx (by simpa using hqx))
  have hfind2 := sqlUpdatedApis_find? values vo api_id user_id st.apis r
    hfind1 hqa hqb
  rw [updateApi, hvalid, hrow]
  simp only [← hsi, ← hvo]
  rw [hfind2, hdoc]

/-- Every document of the mirror update carrying the updated id is the
updated unique document. -/
theorem mongoUpdatedDocs_mem (values : ApiUpdateBody) (result : ApiRow)
    (shouldInc : Bool) (api_id : Nat) (l : List ApiDoc) (d : ApiDoc)
    (hdocsOnly : ∀ x ∈ l, x.api_id = api_id → x = d) :
    ∀ dd ∈ mongoUpdatedDocs values result shouldInc api_id l,
      dd.api_id = api_id → dd = applyDocUpdate values result shouldInc d := by
  intro dd hdd hid
  obtain ⟨d0, hd0, rfl⟩ := List.mem_map.mp hdd
  by_cases hc : (d0.api_id == api_id) = true
  · rw [if_pos hc]
    rw [hdocsOnly d0 hd0 (by simpa using hc)]
  · rw [if_neg hc] at hid ⊢
    exact absurd hid (by simpa using hc)

/-- C2 (amended): for an existing API (unique id in both stores), an
update payload with none of `endpoint_path`/`http_method`/
`endpoint_description` present leaves `version_number` unchanged and
appends nothing to the version history; a payload with a *non-empty*
`endpoint_path` increments `version_number` by exactly 1 and appends
exactly one snapshot of the pre-update document; and after any
successful update the document's `version_number` equals the relational
result's (it is copied from it, never incremented independently). -/
theorem C2_updateApi_versioning (api_id user_id : Nat)
    (values : ApiUpdateBody) (st : ApiState) (r : ApiRow) (d : ApiDoc)
    (hvalid : validateApiUpdatePayload values = .ok ())
    (hrow : st.apis.find? (fun x => x.api_id == api_id
        && x.user_id == user_id && x.isDeleted == false) = some r)
    (hapisOnly : ∀ x ∈ st.apis, x.api_id = api_id → x = r)
    (hdoc : st.docs.find? (fun x => x.api_id == api_id) = some d)
    (hdocsOnly : ∀ x ∈ st.docs, x.api_id = api_id → x = d) :
    (values.endpoint_path = none → values.http_method = none →
      values.endpoint_description = none →
      ∃ row2, (updateApi api_id values user_id st).1 = .ok row2 ∧
        row2.version_number = r.version_number ∧
        (∀ dd ∈ (updateApi api_id values user_id st).2.docs,
          dd.api_id = api_id →
            dd.versions = d.versions ∧
            dd.version_number = row2.version_number)) ∧
    (∀ s, values.endpoint_path = some s → s ≠ "" →
      ∃ row2, (updateApi api_id values user_id st).1 = .ok row2 ∧
        row2.version_number = r.version_number + 1 ∧
        (∀ dd ∈ (updateApi api_id values user_id st).2.docs,
          dd.api_id = api_id →
            dd.versions = d.versions ++ [mkVersionSnapshot d] ∧
            dd.version_number = row2.version_number)) ∧
    (∀ row2, (updateApi api_id values user_id st).1 = .ok row2 →
      ∀ dd ∈ (updateApi api_id values user_id st).2.docs,
        dd.api_id = api_id → dd.version_number = row2.version_number) := by
  refine ⟨?_, ?_, ?_⟩
  · intro h1 h2 h3
    have hsi : (truthyStr values.endpoint_path
        || truthyStr values.http_method
        || truthyStr values.endpoint_description) = false := by
      rw [h1, h2, h3]
      rfl
    have hrun := updateApi_run api_id user_id values st r d false none
      hsi.symm rfl hvalid hrow hapisOnly hdoc
    refine ⟨applyUpdatePayload values none r, ?_, rfl, ?_⟩
    · rw [hrun]
    · rw [hrun]
      intro dd hdd hid
      rw [mongoUpdatedDocs_mem values _ false api_id st.docs d hdocsOnly
        dd hdd hid]
      exact ⟨rfl, rfl⟩
  · intro s h1 hs
    have hsi : (truthyStr values.endpoint_path
        || truthyStr values.http_method
        || truthyStr values.endpoint_description) = true := by
      rw [h1]
      simp [truthyStr, hs]
    have hrun := updateApi_run api_id user_id values st r d true
      (some (r.version_number + 1)) hsi.symm rfl hvalid hrow hapisOnly hdoc
    refine ⟨applyUpdatePayload values (some (r.version_number + 1)) r,
      ?_, rfl, ?_⟩
    · rw [hrun]
    · rw [hrun]
      intro dd hdd hid
      rw [mongoUpdatedDocs_mem values _ true api_id st.docs d hdocsOnly
        dd hdd hid]
      exact ⟨rfl, rfl⟩
  · intro row2 hok dd
    have hrun := updateApi_run api_id user_id values st r d
      (truthyStr values.endpoint_path || truthyStr values.http_method
        || truthyStr values.endpoint_description)
      (if (truthyStr values.endpoint_path || truthyStr values.http_method
        || truthyStr values.endpoint_description) = true then
          some (r.version_number + 1) else none)
      rfl rfl hvalid hrow hapisOnly hdoc
    rw [hrun] at hok
    simp only [Prod.fst, Except.ok.injEq] at hok
    subst hok
    rw [hrun]
    intro hdd hid
    rw [mongoUpdatedDocs_mem values _ _ api_id st.docs d hdocsOnly
      dd hdd hid]
    rfl

/-- Relational row for the C2 scenario. -/
def c2Row : ApiRow := ⟨1, 1, 1, "api", none, "/w", "POST", none, 1,
  "draft", 50, false⟩

/-- Mirror document for the C2 scenario. -/
def c2Doc : ApiDoc := ⟨1, 1, 1, "api", none, "/w", "POST", none, none,
  none, none, none, 1, "draft", 50, false, []⟩

/-- Two-store state for the C2 scenario. -/
def c2State : ApiState := ⟨[c2Row], [c2Doc], 2⟩

/-- An update payload whose `endpoint_path` is present but empty. -/
def c2EmptyPathUpdate : ApiUpdateBody := ⟨none, none, none, some "", none,
  none, none, none, none, none, none⟩

/-- Counterexample for C2 as stated: a payload containing
`endpoint_path` (the empty string, accepted by the route schema and the
update validator) rewrites the path but does not increment
`version_number` and appends no snapshot — the JS truthiness check
treats the present-but-empty field as absent. -/
theorem C2_counterexample :
    (updateApi 1 c2EmptyPathUpdate 1 c2State).1
      = .ok ⟨1, 1, 1, "api", none, "", "POST", none, 1, "draft", 50,
          false⟩ ∧
    (∀ dd ∈ (updateApi 1 c2EmptyPathUpdate 1 c2State).2.docs,
      dd.versions = [] ∧ dd.version_number = 1 ∧ dd.endpoint_path = "") ∧
    (∀ rr ∈ (updateApi 1 c2EmptyPathUpdate 1 c2State).2.apis,
      rr.version_number = 1 ∧ rr.endpoint_path = "") :=
  ⟨rfl, by decide, by decide⟩

/-- An update payload replacing the endpoint path. -/
def c2PathUpdate : ApiUpdateBody := ⟨none, none, none, some "/w2", none,
  none, none, none, none, none, none⟩

/-- Witness for C2 at the concrete one-API state with a non-empty path
update. -/
theorem C2_witness :
    validateApiUpdatePayload c2PathUpdate = .ok () ∧
    c2State.apis.find? (fun x => x.api_id == 1 && x.user_id == 1
        && x.isDeleted == false) = some c2Row ∧
    c2State.docs.find? (fun x => x.api_id == 1) = some c2Doc ∧
    (∃ row2, (updateApi 1 c2PathUpdate 1 c2State).1 = .ok row2 ∧
      row2.version_number = c2Row.version_number + 1 ∧
      (∀ dd ∈ (updateApi 1 c2PathUpdate 1 c2State).2.docs,
        dd.api_id = 1 →
          dd.versions = c2Doc.versions ++ [mkVersionSnapshot c2Doc] ∧
          dd.version_number = row2.version_number)) :=
  ⟨rfl, by decide, by decide,
    (C2_updateApi_versioning 1 1 c2PathUpdate c2State c2Row c2Doc rfl
      (by decide) (by decide) (by decide) (by decide)).2.1 "/w2" rfl
      (by decide)⟩

/-- C3: for every valid creation input, `createApi` inserts the
relational row with `version_number = 1` and `status = draft`, then
mirrors it to a document with the same scalar fields, the rich schema
payload from the request and an empty version history; if the document
insert fails after the relational commit, the call errors
(`DocumentSyncError`) while the committed relational row stays. -/
theorem C3_createApi_mirror (values : ApiBody) (user_id now : Nat)
    (mongoFails : Bool) (st : ApiState)
    (hvalid : validateApiPayload values = .ok ()) :
    (∀ row st2, createApi values user_id now mongoFails st = (.ok row, st2) →
      row.version_number = 1 ∧ row.api_status = "draft" ∧
      st2.apis = st.apis ++ [row] ∧
      ∃ doc,
        st2.docs = st.docs ++ [doc] ∧
        doc.api_id = row.api_id ∧ doc.user_id = row.user_id ∧
        doc.project_id = row.project_id ∧ doc.api_name = row.api_name ∧
        doc.api_description = row.api_description ∧
        doc.endpoint_path = row.endpoint_path ∧
        doc.http_method = row.http_method ∧
        doc.endpoint_description = row.endpoint_description ∧
        doc.version_number = row.version_number ∧
        doc.api_status = row.api_status ∧
        doc.middleware_config = values.middleware_config ∧
        doc.parameters = values.parameters ∧
        doc.allowedFilters = values.allowedFilters ∧
        doc.responses = values.responses ∧
        doc.versions = []) ∧
    (mongoFails = true →
      ∃ row,
        (createApi values user_id now mongoFails st).1
          = .error .documentSync ∧
        (createApi values user_id now mongoFails st).2
          = { st with
              apis := st.apis ++ [row]
              nextApiId := st.nextApiId + 1 } ∧
        row.version_number = 1 ∧ row.api_status = "draft") := by
  constructor
  · intro row st2 hok
    rw [createApi, hvalid] at hok
    cases hmf : mongoFails with
    | true =>
      rw [hmf] at hok
      simp at hok
    | false =>
      rw [hmf] at hok
      simp only [Bool.false_eq_true, if_false, Prod.mk.injEq,
        Except.ok.injEq] at hok
      obtain ⟨hr, hs⟩ := hok
      subst hr
      subst hs
      exact ⟨rfl, rfl, rfl, _, rfl, rfl, rfl, rfl, rfl, rfl, rfl, rfl, rfl,
        rfl, rfl, rfl, rfl, rfl, rfl, rfl⟩
  · intro hmf
    subst hmf
    refine ⟨{ api_id := st.nextApiId
              user_id := user_id
              project_id := values.project_id
              api_name := values.api_name
              api_description := jsOrNull values.api_description
              endpoint_path := values.endpoint_path
              http_method := values.http_method
              endpoint_description := jsOrNull values.endpoint_description
              version_number := 1
              api_status := "draft"
              created_at := now
              isDeleted := false }, ?_, ?_, rfl, rfl⟩
    · rw [createApi, hvalid]
      rfl
    · rw [createApi, hvalid]
      rfl

/-- Concrete creation payload for the C3 witness. -/
def c3Input : ApiBody := ⟨1, "api", none, "/w", "POST", none, none, none,
  none, none⟩

/-- Empty two-store state for the C3 witness. -/
def c3State : ApiState := ⟨[], [], 1⟩

/-- The row the C3 witness run inserts. -/
def c3Row : ApiRow := ⟨1, 1, 1, "api", none, "/w", "POST", none, 1,
  "draft", 50, false⟩

/-- The post-run state of the C3 witness. -/
def c3St2 : ApiState := ⟨[c3Row],
  [⟨1, 1, 1, "api", none, "/w", "POST", none, none, none, none, none, 1,
    "draft", 50, false, []⟩], 2⟩

/-- Witness for C3 at a concrete valid input and empty state. -/
theorem C3_witness :
    validateApiPayload c3Input = .ok () ∧
    (c3Row.version_number = 1 ∧ c3Row.api_status = "draft" ∧
      c3St2.apis = c3State.apis ++ [c3Row] ∧
      ∃ doc,
        c3St2.docs = c3State.docs ++ [doc] ∧
        doc.api_id = c3Row.api_id ∧ doc.user_id = c3Row.user_id ∧
        doc.project_id = c3Row.project_id ∧ doc.api_name = c3Row.api_name ∧
        doc.api_description = c3Row.api_description ∧
        doc.endpoint_path = c3Row.endpoint_path ∧
        doc.http_method = c3Row.http_method ∧
        doc.endpoint_description = c3Row.endpoint_description ∧
        doc.version_number = c3Row.version_number ∧
        doc.api_status = c3Row.api_status ∧
        doc.middleware_config = c3Input.middleware_config ∧
        doc.parameters = c3Input.parameters ∧
        doc.allowedFilters = c3Input.allowedFilters ∧
        doc.responses = c3Input.responses ∧
        doc.versions = []) :=
  ⟨rfl,
    (C3_createApi_mirror c3Input 1 50 false c3State rfl).1
      c3Row c3St2 rfl⟩

/-! ## Container materializer (`api-gen.service.ts`, lines 413–598)

`generateApiSchemas` and `startApi` read the document store, synthesize
the table schema, and drive the filesystem and the container engine.
External effects are recorded in an explicit trace; engine failures are
failure-flag parameters; the host port is `30000 + rand % 1000` for the
engine's random draw. -/

/-- Observable filesystem/container-engine effects of materialization. -/
inductive Effect where
  | mkdir (dir : String)
  | writeFile (path : String)
  | dockerBuild (tag : String)
  | dockerRun (name : String)
  deriving Repr, DecidableEq

/-- Failure modes of materialization (`generateApiSchemas`/`startApi`). -/
inductive GenError where
  | apiNotFound
  | notPost
  | noBodyParams
  | containerFailure
  deriving Repr, DecidableEq

/-- The value `generateApiSchemas` returns on success. -/
structure GenResult where
  tableSchemaPath : String
  apiSchemaPath : String
  tableName : String
  containerDir : String
  deriving Repr, DecidableEq

/-- `generateApiSchemas(apiId)`: fetch the document, require
`http_method == "POST"` and a present `parameters.body` (the checks run
before any filesystem work), synthesize the table schema, create the
working directory and write the two schema files. -/
def generateApiSchemas (md5hex : String → String) (now : Nat)
    (st : ApiState) (apiId : Nat) :
    Except GenError GenResult × List Effect :=
  match st.docs.find? (fun d => d.api_id == apiId) with
  | none => (.error .apiNotFound, [])
  | some apiSchema =>
    if apiSchema.http_method != "POST" then (.error .notPost, [])
    else
      match apiSchema.parameters with
      | none => (.error .noBodyParams, [])
      | some params =>
        match params.body with
        | none => (.error .noBodyParams, [])
        | some body =>
          let tableSchema := generateTableSchema md5hex apiSchema.user_id
            apiSchema.project_id apiSchema.endpoint_path (some body)
          let containerDir := s!"containers/api_{apiId}_{now}"
          let tableSchemaPath := containerDir ++ "/table_schema.json"
          let apiSchemaPath := containerDir ++ "/api_schema.json"
          (.ok ⟨tableSchemaPath, apiSchemaPath, tableSchema.tableName,
              containerDir⟩,
            [.mkdir containerDir, .writeFile tableSchemaPath,
              .writeFile apiSchemaPath])

/-- The value `startApi` returns on success. -/
structure StartResult where
  apiId : Nat
  tableName : String
  containerId : String
  containerName : String
  port : Nat
  url : String
  deriving Repr, DecidableEq

/-- `startApi(apiId)`: generate the schemas, write the service files
(`server.js`, `.env`, `Dockerfile`, `package.json`), build and run the
container (host port `30000 + rand % 1000`), then — as the final step —
issue `findOneAndUpdate` with `api_status: "active"` and a
`container_info` record.  The mongoose `Api` schema declares no
`container_info` path and the connection runs in default strict mode, so
the store silently strips that path and applies only the `api_status`
change.  The relational store is never written. -/
def startApi (md5hex : String → String) (now : Nat)
    (buildFails runFails : Bool) (containerId : String) (rand : Nat)
    (st : ApiState) (apiId : Nat) :
    Except GenError StartResult × ApiState × List Effect :=
  match generateApiSchemas md5hex now st apiId with
  | (.error e, eff) => (.error e, st, eff)
  | (.ok gen, eff) =>
    match st.docs.find? (fun d => d.api_id == apiId) with
    | none => (.error .apiNotFound, st, eff)
    | some apiSchema =>
      let eff2 := eff ++ [.writeFile (gen.containerDir ++ "/server.js"),
        .writeFile (gen.containerDir ++ "/.env"),
        .writeFile (gen.containerDir ++ "/Dockerfile"),
        .writeFile (gen.containerDir ++ "/package.json")]
      let containerName := s!"api_{apiId}_{now}"
      let eff3 := eff2 ++ [.dockerBuild containerName]
      if buildFails then (.error .containerFailure, st, eff3)
      else
        let eff4 := eff3 ++ [.dockerRun containerName]
        if runFails then (.error .containerFailure, st, eff4)
        else
          let hostPort := 30000 + rand % 1000
          let ep := apiSchema.endpoint_path
          let docs1 := st.docs.map (fun dd =>
            if dd.api_id == apiId then { dd with api_status := "active" }
            else dd)
          (.ok ⟨apiId, gen.tableName, containerId, containerName, hostPort,
              s!"http://localhost:{hostPort}{ep}"⟩,
            { st with docs := docs1 }, eff4)

/-- Closed form of a successful `generateApiSchemas` run. -/
theorem generateApiSchemas_ok (md5hex : String → String) (now : Nat)
    (st : ApiState) (apiId : Nat) (d : ApiDoc) (ps : ApiParameters)
    (b : BodySchema)
    (hdoc : st.docs.find? (fun x => x.api_id == apiId) = some d)
    (hpost : d.http_method = "POST")
    (hps : d.parameters = some ps)
    (hb : ps.body = some b) :
    generateApiSchemas md5hex now st apiId
      = (.ok ⟨s!"containers/api_{apiId}_{now}" ++ "/table_schema.json",
          s!"containers/api_{apiId}_{now}" ++ "/api_schema.json",
          (generateTableSchema md5hex d.user_id d.project_id
            d.endpoint_path (some b)).tableName,
          s!"containers/api_{apiId}_{now}"⟩,
        [.mkdir s!"containers/api_{apiId}_{now}",
          .writeFile (s!"containers/api_{apiId}_{now}"
            ++ "/table_schema.json"),
          .writeFile (s!"containers/api_{apiId}_{now}"
            ++ "/api_schema.json")]) := by
  simp only [generateApiSchemas, hdoc]
  rw [show (d.http_method != "POST") = false by rw [hpost]; rfl]
  simp only [Bool.false_eq_true, if_false, hps, hb]

/-- C4 (amended): when materialization succeeds, the container record
(container id, name, port in the 30000–30999 range) is returned to the
caller, but of the final `findOneAndUpdate` only `api_status = "active"`
survives in the document store — the mongoose schema declares no
`container_info` path, so strict mode strips it and the stored documents
change in no other way (no container record is persisted) — and the
relational rows are left untouched, so a `draft` relational status stays
`draft`; for every engine failure after the working directory is
created, the call errors and neither store advances (the state is
unchanged). -/
theorem C4_startApi_activation (md5hex : String → String) (now : Nat)
    (buildFails runFails : Bool) (cid : String) (rand : Nat)
    (st : ApiState) (apiId : Nat) (d : ApiDoc) (ps : ApiParameters)
    (b : BodySchema)
    (hdoc : st.docs.find? (fun x => x.api_id == apiId) = some d)
    (hpost : d.http_method = "POST")
    (hps : d.parameters = some ps)
    (hb : ps.body = some b) :
    (buildFails = false → runFails = false →
      (∃ res, (startApi md5hex now buildFails runFails cid rand st
          apiId).1 = .ok res ∧
        res.port = 30000 + rand % 1000 ∧ 30000 ≤ res.port ∧
        res.port < 31000 ∧ res.containerId = cid ∧
        res.containerName = s!"api_{apiId}_{now}") ∧
      (startApi md5hex now buildFails runFails cid rand st apiId).2.1.docs
        = st.docs.map (fun dd =>
            if dd.api_id == apiId then { dd with api_status := "active" }
            else dd) ∧
      (∀ dd ∈ (startApi md5hex now buildFails runFails cid rand st
          apiId).2.1.docs, dd.api_id = apiId →
        dd.api_status = "active") ∧
      (startApi md5hex now buildFails runFails cid rand st apiId).2.1.apis
        = st.apis) ∧
    ((buildFails = true ∨ runFails = true) →
      (startApi md5hex now buildFails runFails cid rand st apiId).1
        = .error .containerFailure ∧
      (startApi md5hex now buildFails runFails cid rand st apiId).2.1
        = st ∧
      .mkdir s!"containers/api_{apiId}_{now}"
        ∈ (startApi md5hex now buildFails runFails cid rand st
            apiId).2.2) := by
  have hgen := generateApiSchemas_ok md5hex now st apiId d ps b hdoc hpost
    hps hb
  constructor
  · intro hbf hrf
    subst hbf
    subst hrf
    have hrun : startApi md5hex now false false cid rand st apiId
        = (.ok ⟨apiId,
            (generateTableSchema md5hex d.user_id d.project_id
              d.endpoint_path (some b)).tableName,
            cid, s!"api_{apiId}_{now}", 30000 + rand % 1000,
            s!"http://localhost:{30000 + rand % 1000}{d.endpoint_path}"⟩,
          { st with docs := st.docs.map (fun dd =>
              if dd.api_id == apiId then
                { dd with api_status := "active" }
              else dd) },
          [.mkdir s!"containers/api_{apiId}_{now}",
            .writeFile (s!"containers/api_{apiId}_{now}"
              ++ "/table_schema.json"),
            .writeFile (s!"containers/api_{apiId}_{now}"
              ++ "/api_schema.json"),
            .writeFile (s!"containers/api_{apiId}_{now}" ++ "/server.js"),
            .writeFile (s!"containers/api_{apiId}_{now}" ++ "/.env"),
            .writeFile (s!"containers/api_{apiId}_{now}" ++ "/Dockerfile"),
            .writeFile (s!"containers/api_{apiId}_{now}"
              ++ "/package.json"),
            .dockerBuild s!"api_{apiId}_{now}",
            .dockerRun s!"api_{apiId}_{now}"]) := by
      rw [startApi, hgen, hdoc]
      rfl
    rw [hrun]
    refine ⟨⟨_, rfl, rfl, ?_, ?_, rfl, rfl⟩, rfl, ?_, rfl⟩
    · show 30000 ≤ 30000 + rand % 1000
      omega
    · show 30000 + rand % 1000 < 31000
      omega
    intro dd hdd hid
    obtain ⟨d0, hd0, rfl⟩ := List.mem_map.mp hdd
    by_cases hc : (d0.api_id == apiId) = true
    · rw [if_pos hc]
    · rw [if_neg hc] at hid ⊢
      exact absurd hid (by simpa using hc)
  · intro hor
    cases hbf : buildFails with
    | true =>
      have hrun : startApi md5hex now true runFails cid rand st apiId
          = (.error .containerFailure, st,
            [.mkdir s!"containers/api_{apiId}_{now}",
              .writeFile (s!"containers/api_{apiId}_{now}"
                ++ "/table_schema.json"),
              .writeFile (s!"containers/api_{apiId}_{now}"
                ++ "/api_schema.json"),
              .writeFile (s!"containers/api_{apiId}_{now}"
                ++ "/server.js"),
              .writeFile (s!"containers/api_{apiId}_{now}" ++ "/.env"),
              .writeFile (s!"containers/api_{apiId}_{now}"
                ++ "/Dockerfile"),
              .writeFile (s!"containers/api_{apiId}_{now}"
                ++ "/package.json"),
              .dockerBuild s!"api_{apiId}_{now}"]) := by
        rw [startApi, hgen, hdoc]
        rfl
      rw [hrun]
      exact ⟨rfl, rfl, by simp⟩
    | false =>
      cases hrf : runFails with
      | true =>
        have hrun : startApi md5hex now false true cid rand st apiId
            = (.error .containerFailure, st,
              [.mkdir s!"containers/api_{apiId}_{now}",
                .writeFile (s!"containers/api_{apiId}_{now}"
                  ++ "/table_schema.json"),
                .writeFile (s!"containers/api_{apiId}_{now}"
                  ++ "/api_schema.json"),
                .writeFile (s!"containers/api_{apiId}_{now}"
                  ++ "/server.js"),
                .writeFile (s!"containers/api_{apiId}_{now}" ++ "/.env"),
                .writeFile (s!"containers/api_{apiId}_{now}"
                  ++ "/Dockerfile"),
                .writeFile (s!"containers/api_{apiId}_{now}"
                  ++ "/package.json"),
                .dockerBuild s!"api_{apiId}_{now}",
                .dockerRun s!"api_{apiId}_{now}"]) := by
          rw [startApi, hgen, hdoc]
          rfl
        rw [hrun]
        exact ⟨rfl, rfl, by simp⟩
      | false =>
        rw [hbf, hrf] at hor
        rcases hor with h | h <;> cases h

/-- Relational row for the C4 scenario (status `draft`). -/
def c4Row : ApiRow := ⟨1, 1, 1, "api", none, "/w", "POST", none, 1,
  "draft", 50, false⟩

/-- Materializable document for the C4 scenario: `POST` with one
required string property. -/
def c4Doc : ApiDoc := ⟨1, 1, 1, "api", none, "/w", "POST", none, none,
  some ⟨none, some ⟨some ["name"], some [("name",
    ⟨"string", none, none, false⟩)]⟩⟩,
  none, none, 1, "draft", 50, false, []⟩

/-- Two-store state for the C4 scenario. -/
def c4State : ApiState := ⟨[c4Row], [c4Doc], 2⟩

/-- Counterexample for C4 as stated: a fully successful materialization
returns the container record to the caller, but the document store ends
holding exactly the old document with only `api_status` changed — the
`container_info` path of the `findOneAndUpdate` is stripped by the
strict-mode schema, so no `ContainerInstance` is persisted into the
record — and the relational `apis` rows are never written, their status
staying `"draft"`: neither the persistence conjunct nor "active in both
stores" holds. -/
theorem C4_counterexample :
    (startApi testDigest 77 false false "cid" 5 c4State 1).1
      = .ok ⟨1, "api_0123456789", "cid", "api_1_77", 30005,
          "http://localhost:30005/w"⟩ ∧
    (startApi testDigest 77 false false "cid" 5 c4State 1).2.1.docs
      = [⟨1, 1, 1, "api", none, "/w", "POST", none, none,
          some ⟨none, some ⟨some ["name"], some [("name",
            ⟨"string", none, none, false⟩)]⟩⟩,
          none, none, 1, "active", 50, false, []⟩] ∧
    (∀ rr ∈ (startApi testDigest 77 false false "cid" 5 c4State
        1).2.1.apis,
      rr.api_status = "draft") :=
  ⟨rfl, by decide, by decide⟩

/-- Witness for C4 at the concrete state, exercising the failure branch
(build failure leaves the state untouched with the directory already
created). -/
theorem C4_witness :
    c4State.docs.find? (fun x => x.api_id == 1) = some c4Doc ∧
    c4Doc.http_method = "POST" ∧
    c4Doc.parameters = some ⟨none, some ⟨some ["name"], some [("name",
      ⟨"string", none, none, false⟩)]⟩⟩ ∧
    ((startApi testDigest 77 true false "cid" 5 c4State 1).1
        = .error .containerFailure ∧
      (startApi testDigest 77 true false "cid" 5 c4State 1).2.1
        = c4State ∧
      .mkdir "containers/api_1_77"
        ∈ (startApi testDigest 77 true false "cid" 5 c4State 1).2.2) :=
  ⟨by decide, rfl, rfl,
    (C4_startApi_activation testDigest 77 true false "cid" 5 c4State 1
      c4Doc ⟨none, some ⟨some ["name"], some [("name",
        ⟨"string", none, none, false⟩)]⟩⟩
      ⟨some ["name"], some [("name", ⟨"string", none, none, false⟩)]⟩
      (by decide) rfl rfl rfl).2 (Or.inl rfl)⟩

/-- C5 (amended): materialization fails with the unsupported-shape error
before any filesystem or container work — and leaves both stores
untouched, so a `draft` status stays `draft` — when the API's
`http_method` is not `POST` or when its schema has no body at all
(`parameters` absent or `parameters.body` absent); a present-but-empty
body object passes the check. -/
theorem C5_materialization_preconditions (md5hex : String → String)
    (now : Nat) (buildFails runFails : Bool) (cid : String) (rand : Nat)
    (st : ApiState) (apiId : Nat) (d : ApiDoc)
    (hdoc : st.docs.find? (fun x => x.api_id == apiId) = some d)
    (h : d.http_method ≠ "POST" ∨ d.parameters = none ∨
      ∃ ps, d.parameters = some ps ∧ ps.body = none) :
    (∃ e, generateApiSchemas md5hex now st apiId = (.error e, [])) ∧
    (∃ e, startApi md5hex now buildFails runFails cid rand st apiId
        = (.error e, st, [])) ∧
    (d.http_method ≠ "POST" →
      generateApiSchemas md5hex now st apiId = (.error .notPost, [])) := by
  have hgen : ∃ e, generateApiSchemas md5hex now st apiId
      = (.error e, []) := by
    by_cases hm : d.http_method = "POST"
    · rcases h with hm2 | hp | ⟨ps, hps, hb⟩
      · exact absurd hm hm2
      · refine ⟨.noBodyParams, ?_⟩
        simp only [generateApiSchemas, hdoc]
        rw [show (d.http_method != "POST") = false by rw [hm]; rfl]
        simp only [Bool.false_eq_true, if_false, hp]
      · refine ⟨.noBodyParams, ?_⟩
        simp only [generateApiSchemas, hdoc]
        rw [show (d.http_method != "POST") = false by rw [hm]; rfl]
        simp only [Bool.false_eq_true, if_false, hps, hb]
    · refine ⟨.notPost, ?_⟩
      simp only [generateApiSchemas, hdoc]
      rw [show (d.http_method != "POST") = true by simpa using hm]
      rfl
  obtain ⟨e, he⟩ := hgen
  refine ⟨⟨e, he⟩, ⟨e, ?_⟩, ?_⟩
  · rw [startApi, he]
  · intro hm
    simp only [generateApiSchemas, hdoc]
    rw [show (d.http_method != "POST") = true by simpa using hm]
    rfl

/-- A document whose body is present but empty (`body: {}` — no
required list, no properties), used to refute C5 as stated. -/
def c5EmptyBodyDoc : ApiDoc := ⟨2, 1, 1, "apiE", none, "/e", "POST",
  none, none, some ⟨none, some ⟨none, none⟩⟩, none, none, 1, "draft", 50,
  false, []⟩

/-- State holding only the empty-body document. -/
def c5EState : ApiState := ⟨[], [c5EmptyBodyDoc], 3⟩

/-- Counterexample for C5 as stated: a `POST` API whose schema lacks a
non-empty body (its `parameters.body` is an empty object) is *not*
rejected — the presence-only check passes it, the working directory is
created and the schema files are written. -/
theorem C5_counterexample :
    (generateApiSchemas testDigest 77 c5EState 2).1
      = .ok ⟨"containers/api_2_77/table_schema.json",
          "containers/api_2_77/api_schema.json", "api_0123456789",
          "containers/api_2_77"⟩ ∧
    (generateApiSchemas testDigest 77 c5EState 2).2
      = [.mkdir "containers/api_2_77",
          .writeFile "containers/api_2_77/table_schema.json",
          .writeFile "containers/api_2_77/api_schema.json"] :=
  ⟨rfl, by decide⟩

/-- A `GET` document for the C5 witness. -/
def c5GetDoc : ApiDoc := ⟨3, 1, 1, "apiG", none, "/g", "GET", none, none,
  some ⟨none, some ⟨some ["name"], some [("name",
    ⟨"string", none, none, false⟩)]⟩⟩,
  none, none, 1, "draft", 50, false, []⟩

/-- State holding only the `GET` document. -/
def c5GState : ApiState := ⟨[], [c5GetDoc], 4⟩

/-- Witness for C5: materializing the `GET` definition fails before any
filesystem work with the not-POST error and state unchanged. -/
theorem C5_witness :
    c5GState.docs.find? (fun x => x.api_id == 3) = some c5GetDoc ∧
    (c5GetDoc.http_method ≠ "POST" ∨ c5GetDoc.parameters = none ∨
      ∃ ps, c5GetDoc.parameters = some ps ∧ ps.body = none) ∧
    ((∃ e, generateApiSchemas testDigest 77 c5GState 3 = (.error e, [])) ∧
      (∃ e, startApi testDigest 77 false false "cid" 5 c5GState 3
          = (.error e, c5GState, [])) ∧
      (c5GetDoc.http_method ≠ "POST" →
        generateApiSchemas testDigest 77 c5GState 3
          = (.error .notPost, []))) :=
  ⟨by decide, Or.inl (by decide),
    C5_materialization_preconditions testDigest 77 false false "cid" 5
      c5GState 3 c5GetDoc (by decide) (Or.inl (by decide))⟩

end Smaapi
